import Mathlib

/-!
Verification of the LimeSurvey MCP server (TonisOrmisson/limesurvey-mcp).

The development shallowly embeds the parts of the TypeScript source that the
specification's claims are about:

* `src/services/limesurvey-api.ts` — the remote-procedure Gateway
  (`request`, `getSessionKey`, `releaseSessionKey` and the convenience
  methods), modelled as pure state-passing functions over the process-wide
  `sessionKey : Option String` cell, with the HTTP transport abstracted as an
  oracle `Remote` mapping an outbound call to its transport outcome, and with
  each function additionally returning the list of outbound calls it issued.
* the tool adapters (`src/tools/...` and the legacy root-level tool files),
  modelled as functions from validated input plus the outcome of the Gateway
  operations they invoke to the structured tool response, together with the
  list of Gateway operations they actually invoked.
* the module-registration tables of the read-only-mode server variant.

JavaScript-specific behaviours are modelled explicitly: truthiness of the
`error` envelope field and of cached/configured strings, `JSON.stringify` of
the error payload, `Math.round(len * 0.75 / 1024)` as exact rational
rounding, and `x || fallback` defaulting.
-/

namespace LimeSurveyMCP

/-- A JSON value, as handled by the JavaScript source (`any` payloads). -/
inductive Json where
  | null
  | bool (b : Bool)
  | num (n : Int)
  | str (s : String)
  | arr (xs : List Json)
  | obj (fields : List (String × Json))
deriving Repr

/-- The `error` field of the response envelope in `limesurvey-api.ts`:
`error?: string | \x7bcode: number; message: string\x7d`. -/
inductive LSError where
  | str (s : String)
  | codeMsg (code : Int) (message : String)
deriving Repr, DecidableEq

/-- The decoded response envelope (`LimeSurveyResponse` interface):
`\x7bid: number; result?: any; error?: ...\x7d`.  `result = none` models an
absent (`undefined`) result field. -/
structure LimeSurveyResponse where
  id : Int
  result : Option Json := none
  error : Option LSError := none
deriving Repr

/-- JavaScript truthiness of `response.data.error`: an absent field and the
empty string are falsy; every `\x7bcode, message\x7d` object is truthy. -/
def lsErrorTruthy : Option LSError → Bool
  | none => false
  | some (LSError.str s) => s ≠ ""
  | some (LSError.codeMsg _ _) => true

/-- JSON string escaping of one character, as `JSON.stringify` performs it for
the characters that occur in this development. -/
def jsonEscapeChar (c : Char) : String :=
  if c = '"' then "\\\""
  else if c = '\\' then "\\\\"
  else if c = '\n' then "\\n"
  else if c = '\r' then "\\r"
  else if c = '\t' then "\\t"
  else String.singleton c

/-- JSON string escaping, character by character. -/
def jsonEscape (s : String) : String :=
  String.join (s.toList.map jsonEscapeChar)

/-- The `JSON.stringify` rendering of a string value. -/
def jsonStringifyString (s : String) : String :=
  "\"" ++ jsonEscape s ++ "\""

/-- The `JSON.stringify` rendering of the raw error payload, as interpolated
into the thrown message by `request`. -/
def stringifyLSError : LSError → String
  | LSError.str s => jsonStringifyString s
  | LSError.codeMsg c m =>
      "\x7b\"code\":" ++ toString c ++ ",\"message\":" ++ jsonStringifyString m ++ "\x7d"

/-- Outcome of the single HTTP POST performed by `request`: either the
transport layer throws (network failure, non-2xx status), or a decoded
envelope is delivered. -/
inductive TransportOutcome where
  | failure (msg : String)
  | success (data : LimeSurveyResponse)
deriving Repr

/-- A thrown JavaScript error, tracked by its `message` property.  An empty
message models an error whose message is missing or empty (both are falsy
for the adapters' `error?.message || 'Unknown error'` fallback). -/
structure JsError where
  message : String
deriving Repr, DecidableEq

/-- The message of the error thrown by `request` when the envelope carries a
truthy `error` field. -/
def apiErrorMessage (e : LSError) : String :=
  "LimeSurvey API error: " ++ stringifyLSError e

/-- `LimeSurveyAPI.request`, given the outcome of its one HTTP POST.
A transport failure is logged and rethrown; a truthy envelope `error` field
raises `new Error` with the payload serialized into the message; otherwise
the envelope's `result` field is returned verbatim. -/
def request (outcome : TransportOutcome) : Except JsError (Option Json) :=
  match outcome with
  | TransportOutcome.failure m => Except.error (JsError.mk m)
  | TransportOutcome.success data =>
      if lsErrorTruthy data.error then
        Except.error (JsError.mk (apiErrorMessage ((data.error).getD (LSError.str ""))))
      else
        Except.ok data.result

/-- Process configuration: `LIMESURVEY_USERNAME` / `LIMESURVEY_PASSWORD`
environment variables (`none` models an unset variable). -/
structure Config where
  username : Option String
  password : Option String
deriving Repr, DecidableEq

/-- JavaScript truthiness of an optional string (unset and empty are falsy). -/
def strTruthy : Option String → Bool
  | none => false
  | some s => s ≠ ""

/-- One outbound remote-procedure call: method name and positional params. -/
structure OutCall where
  method : String
  params : List Json
deriving Repr

/-- The remote endpoint, abstracted as a deterministic oracle from an
outbound call to its transport outcome. -/
abbrev Remote := String → List Json → TransportOutcome

/-- Message of the error thrown when credentials are missing. -/
def credentialsMissingMessage : String :=
  "LimeSurvey credentials not found in environment variables"

/-- Message of the inner error thrown when the authenticate call does not
return a usable key. -/
def emptyKeyMessage : String :=
  "Failed to get session key: Empty or invalid response from LimeSurvey API"

/-- The catch block of `getSessionKey` rewraps any error thrown inside its
try block. -/
def wrapKeyFailure (inner : String) : String :=
  "Failed to get LimeSurvey session key: " ++ inner

/-- Executable model of JavaScript `String.prototype.toLowerCase` for the
ASCII format names this code handles. -/
def jsToLower (s : String) : String := String.mk (s.toList.map Char.toLower)

/-- Executable model of JavaScript `String.prototype.toUpperCase` for the
ASCII format names this code handles. -/
def jsToUpper (s : String) : String := String.mk (s.toList.map Char.toUpper)

/-- Executable model of JavaScript `String.prototype.trim`: strip leading
and trailing whitespace characters. -/
def jsTrim (s : String) : String :=
  String.mk
    (((s.toList.dropWhile Char.isWhitespace).reverse.dropWhile
        Char.isWhitespace).reverse)

/-- `LimeSurveyAPI.getSessionKey`.  Takes the configuration, the remote
oracle and the current `sessionKey` cell; returns the call result, the new
`sessionKey` cell, and the outbound calls issued.  A truthy cached key is
returned without any outbound call; otherwise credentials are validated and
one `get_session_key` call is issued, whose result is cached only when it is
a string with non-empty trim. -/
def getSessionKey (cfg : Config) (remote : Remote) (st : Option String) :
    Except JsError String × Option String × List OutCall :=
  if strTruthy st then
    (Except.ok (st.getD ""), st, [])
  else if !strTruthy cfg.username || !strTruthy cfg.password then
    (Except.error (JsError.mk credentialsMissingMessage), st, [])
  else
    let u := cfg.username.getD ""
    let p := cfg.password.getD ""
    let call : OutCall := OutCall.mk "get_session_key" [Json.str u, Json.str p]
    match request (remote "get_session_key" [Json.str u, Json.str p]) with
    | Except.ok (some (Json.str k)) =>
        if jsTrim k ≠ "" then
          (Except.ok k, some k, [call])
        else
          (Except.error (JsError.mk (wrapKeyFailure emptyKeyMessage)), st, [call])
    | Except.ok _ =>
        (Except.error (JsError.mk (wrapKeyFailure emptyKeyMessage)), st, [call])
    | Except.error e =>
        (Except.error (JsError.mk (wrapKeyFailure e.message)), st, [call])

/-- `LimeSurveyAPI.releaseSessionKey`.  Never raises: it returns a boolean.
With no truthy cached key it trivially succeeds without an outbound call;
otherwise it issues one `release_session_key` call, clearing the cache and
returning `true` on success, and returning `false` (cache untouched) on
failure. -/
def releaseSessionKey (remote : Remote) (st : Option String) :
    Bool × Option String × List OutCall :=
  if !strTruthy st then
    (true, st, [])
  else
    let k := st.getD ""
    let call : OutCall := OutCall.mk "release_session_key" [Json.str k]
    match request (remote "release_session_key" [Json.str k]) with
    | Except.ok _ => (true, none, [call])
    | Except.error _ => (false, st, [call])

/-- The convenience methods of `LimeSurveyAPI`, one per remote procedure.
Each is `getSessionKey` followed by one `request` with the token prepended
to the domain arguments. -/
inductive ConvMethod where
  | listSurveys
  | getSurveyProperties
  | listQuestions
  | listGroups
  | getResponseCount
  | exportResponses
  | exportStatistics
  | activateSurvey
  | addParticipant
  | importSurvey
  | exportSurveyStructure
  | copySurvey
  | deleteSurvey
  | importGroup
  | exportGroup
  | resetSurveyResponses
  | setResponseStatus
  | deleteResponse
  | deleteAllResponses
  | importResponses
  | addResponse
  | getResponse
  | updateResponse
  | uploadFile
  | getUploadedFiles
  | listParticipants
  | addParticipants
  | deleteParticipants
  | getQuestionnaireDefinition
  | getQuotas
  | getUserDetails
deriving Repr, DecidableEq

/-- The remote procedure name each convenience method passes to `request`. -/
def rpcName : ConvMethod → String
  | ConvMethod.listSurveys => "list_surveys"
  | ConvMethod.getSurveyProperties => "get_survey_properties"
  | ConvMethod.listQuestions => "list_questions"
  | ConvMethod.listGroups => "list_groups"
  | ConvMethod.getResponseCount => "get_summary"
  | ConvMethod.exportResponses => "export_responses"
  | ConvMethod.exportStatistics => "export_statistics"
  | ConvMethod.activateSurvey => "activate_survey"
  | ConvMethod.addParticipant => "add_participants"
  | ConvMethod.importSurvey => "import_survey"
  | ConvMethod.exportSurveyStructure => "export_survey"
  | ConvMethod.copySurvey => "copy_survey"
  | ConvMethod.deleteSurvey => "delete_survey"
  | ConvMethod.importGroup => "import_group"
  | ConvMethod.exportGroup => "export_group"
  | ConvMethod.resetSurveyResponses => "reset_survey_logic_file"
  | ConvMethod.setResponseStatus => "set_response_status"
  | ConvMethod.deleteResponse => "delete_response"
  | ConvMethod.deleteAllResponses => "delete_all_responses"
  | ConvMethod.importResponses => "import_responses"
  | ConvMethod.addResponse => "add_response"
  | ConvMethod.getResponse => "get_response"
  | ConvMethod.updateResponse => "update_response"
  | ConvMethod.uploadFile => "upload_file"
  | ConvMethod.getUploadedFiles => "get_uploaded_files"
  | ConvMethod.listParticipants => "list_participants"
  | ConvMethod.addParticipants => "add_participants"
  | ConvMethod.deleteParticipants => "delete_participants"
  | ConvMethod.getQuestionnaireDefinition => "get_questionnaire_definition"
  | ConvMethod.getQuotas => "get_quota"
  | ConvMethod.getUserDetails => "get_user_details"

/-- Shared shape of every convenience method: `await this.getSessionKey()`
followed by `this.request(method, [key, ...domainArgs])`.  An error from
`getSessionKey` propagates unchanged and issues no further call. -/
def callWithSession (cfg : Config) (remote : Remote) (st : Option String)
    (method : String) (args : List Json) :
    Except JsError (Option Json) × Option String × List OutCall :=
  match getSessionKey cfg remote st with
  | (Except.error e, st1, calls) => (Except.error e, st1, calls)
  | (Except.ok key, st1, calls) =>
      let params := Json.str key :: args
      (request (remote method params), st1, calls ++ [OutCall.mk method params])

/-- `LimeSurveyAPI.listSurveys`: `request('list_surveys', [key])`. -/
def listSurveys (cfg : Config) (remote : Remote) (st : Option String) :
    Except JsError (Option Json) × Option String × List OutCall :=
  callWithSession cfg remote st "list_surveys" []

/-- `LimeSurveyAPI.deleteAllResponses`:
`request('delete_all_responses', [key, surveyId])`. -/
def apiDeleteAllResponses (cfg : Config) (remote : Remote) (st : Option String)
    (surveyId : Json) :
    Except JsError (Option Json) × Option String × List OutCall :=
  callWithSession cfg remote st "delete_all_responses" [surveyId]

/-- One client-visible operation on the Gateway: a `getSessionKey` call, a
`releaseSessionKey` call, or one of the convenience methods with its domain
arguments. -/
inductive Op where
  | getKey
  | release
  | conv (c : ConvMethod) (args : List Json)

/-- Run a sequence of Gateway operations from a given `sessionKey` state,
returning the final state, the concatenated outbound-call trace, and the
list of results of the `getKey` operations in order. -/
def runOps (cfg : Config) (remote : Remote) :
    Option String → List Op →
    Option String × List OutCall × List (Except JsError String)
  | st, [] => (st, [], [])
  | st, Op.getKey :: ops =>
      let r := getSessionKey cfg remote st
      let rest := runOps cfg remote r.2.1 ops
      (rest.1, r.2.2 ++ rest.2.1, r.1 :: rest.2.2)
  | st, Op.release :: ops =>
      let r := releaseSessionKey remote st
      let rest := runOps cfg remote r.2.1 ops
      (rest.1, r.2.2 ++ rest.2.1, rest.2.2)
  | st, Op.conv c args :: ops =>
      let r := callWithSession cfg remote st (rpcName c) args
      let rest := runOps cfg remote r.2.1 ops
      (rest.1, r.2.2 ++ rest.2.1, rest.2.2)

/-- Number of outbound `get_session_key` (authenticate) calls in a trace. -/
def countAuth (calls : List OutCall) : Nat :=
  List.countP (fun c => c.method == "get_session_key") calls

/-- Authentication is configured and succeeds at the remote with key `k`:
both credentials are set and truthy, and the `get_session_key` call returns
a string whose trim is non-empty. -/
def authOK (cfg : Config) (remote : Remote) (k : String) : Prop :=
  ∃ u p, cfg.username = some u ∧ cfg.password = some p ∧ u ≠ "" ∧ p ≠ "" ∧
    request (remote "get_session_key" [Json.str u, Json.str p]) =
      Except.ok (some (Json.str k)) ∧
    jsTrim k ≠ ""

/-- One `{type: "text", text: ...}` content item of a tool response. -/
structure TextItem where
  text : String
deriving Repr, DecidableEq

/-- The structured response every tool handler returns: a list of text
content items and the optional `isError` flag (absent means `false`). -/
structure ToolResponse where
  content : List TextItem
  isError : Bool := false
deriving Repr, DecidableEq

/-- Result of running a tool handler: its response and the names of the
Gateway (`limesurveyAPI`) operations it invoked, in order. -/
structure HandlerOut where
  response : ToolResponse
  gatewayCalls : List String
deriving Repr, DecidableEq

/-- The adapters' `error?.message || 'Unknown error'` fallback: a missing or
empty (falsy) message is replaced by the generic string. -/
def errText (e : JsError) : String :=
  if e.message = "" then "Unknown error" else e.message

/-- Indentation used by `JSON.stringify(x, null, 2)`. -/
def indent2 (d : Nat) : String :=
  String.join (List.replicate d "  ")

mutual

/-- `JSON.stringify(x, null, 2)` at nesting depth `d`. -/
def stringify2 (d : Nat) : Json → String
  | Json.null => "null"
  | Json.bool b => if b then "true" else "false"
  | Json.num n => toString n
  | Json.str s => jsonStringifyString s
  | Json.arr [] => "[]"
  | Json.arr (x :: xs) =>
      "[\n" ++ stringify2Items (d + 1) x xs ++ "\n" ++ indent2 d ++ "]"
  | Json.obj [] => "\x7b\x7d"
  | Json.obj (f :: fs) =>
      "\x7b\n" ++ stringify2Fields (d + 1) f fs ++ "\n" ++ indent2 d ++ "\x7d"
termination_by j => sizeOf j

/-- Array items of `JSON.stringify(x, null, 2)`, one per line. -/
def stringify2Items (d : Nat) (x : Json) (xs : List Json) : String :=
  match xs with
  | [] => indent2 d ++ stringify2 d x
  | y :: ys => indent2 d ++ stringify2 d x ++ ",\n" ++ stringify2Items d y ys
termination_by 1 + sizeOf x + sizeOf xs

/-- Object fields of `JSON.stringify(x, null, 2)`, one per line. -/
def stringify2Fields (d : Nat) : String × Json → List (String × Json) → String
  | (k, v), [] => indent2 d ++ jsonStringifyString k ++ ": " ++ stringify2 d v
  | (k, v), g :: gs =>
      indent2 d ++ jsonStringifyString k ++ ": " ++ stringify2 d v ++ ",\n" ++
        stringify2Fields d g gs
termination_by f fs => 1 + sizeOf f + sizeOf fs

end


/-- `JSON.stringify(result, null, 2)` on an optional result; an absent
(`undefined`) result renders as the non-string `undefined` in JavaScript,
modelled here by the text `undefined`. -/
def stringifyResultOpt : Option Json → String
  | none => "undefined"
  | some j => stringify2 0 j

mutual

/-- JavaScript string coercion of a value interpolated into a template
literal. -/
def jsToString : Json → String
  | Json.null => "null"
  | Json.bool b => if b then "true" else "false"
  | Json.num n => toString n
  | Json.str s => s
  | Json.arr xs => jsArrJoin xs
  | Json.obj _ => "[object Object]"

/-- `Array.prototype.toString`: elements joined by commas. -/
def jsArrJoin : List Json → String
  | [] => ""
  | [x] => jsArrElem x
  | x :: y :: ys => jsArrElem x ++ "," ++ jsArrJoin (y :: ys)

/-- One array element under `join`: `null` renders as the empty string. -/
def jsArrElem : Json → String
  | Json.null => ""
  | j => jsToString j

end

/-- JavaScript template interpolation of an optional value (`undefined` when
absent). -/
def jsTemplate : Option Json → String
  | none => "undefined"
  | some j => jsToString j

/-- The `deleteAllResponses` tool handler (`src/tools/response-management.ts`).
The input schema declares `confirmDeletion: z.literal(true)`; the handler
body additionally guards on the flag and short-circuits with an error
response, calling `limesurveyAPI.deleteAllResponses` (whose outcome is the
parameter `gw`) only when confirmed. -/
def deleteAllResponsesHandler (surveyId : String) (confirmDeletion : Bool)
    (gw : Except JsError (Option Json)) : HandlerOut :=
  if !confirmDeletion then
    HandlerOut.mk (ToolResponse.mk
      [TextItem.mk "You must confirm deletion by setting confirmDeletion to true"]
      true) []
  else
    match gw with
    | Except.ok result =>
        HandlerOut.mk (ToolResponse.mk
          [TextItem.mk ("All responses from survey " ++ surveyId ++
             " deleted successfully"),
           TextItem.mk (stringifyResultOpt result)] false) ["deleteAllResponses"]
    | Except.error e =>
        HandlerOut.mk (ToolResponse.mk
          [TextItem.mk ("Error deleting responses: " ++ errText e)] true)
          ["deleteAllResponses"]

/-- The `resetSurveyResponses` tool handler
(`src/tools/response-management.ts`), guarded by `confirmReset`. -/
def resetSurveyResponsesHandler (surveyId : String) (confirmReset : Bool)
    (gw : Except JsError (Option Json)) : HandlerOut :=
  if !confirmReset then
    HandlerOut.mk (ToolResponse.mk
      [TextItem.mk "You must confirm reset by setting confirmReset to true"]
      true) []
  else
    match gw with
    | Except.ok result =>
        HandlerOut.mk (ToolResponse.mk
          [TextItem.mk ("Response tables for survey " ++ surveyId ++
             " reset successfully"),
           TextItem.mk (stringifyResultOpt result)] false) ["resetSurveyResponses"]
    | Except.error e =>
        HandlerOut.mk (ToolResponse.mk
          [TextItem.mk ("Error resetting survey response tables: " ++ errText e)]
          true) ["resetSurveyResponses"]

/-- The `deleteSurvey` tool handler (`src/tools/survey-management.ts`),
guarded by `confirmDeletion`. -/
def deleteSurveyHandler (surveyId : String) (confirmDeletion : Bool)
    (gw : Except JsError (Option Json)) : HandlerOut :=
  if !confirmDeletion then
    HandlerOut.mk (ToolResponse.mk
      [TextItem.mk "You must confirm deletion by setting confirmDeletion to true"]
      true) []
  else
    match gw with
    | Except.ok result =>
        HandlerOut.mk (ToolResponse.mk
          [TextItem.mk ("Survey " ++ surveyId ++ " deleted successfully"),
           TextItem.mk (stringifyResultOpt result)] false) ["deleteSurvey"]
    | Except.error e =>
        HandlerOut.mk (ToolResponse.mk
          [TextItem.mk ("Error deleting survey: " ++ errText e)] true)
          ["deleteSurvey"]

/-- The `deleteParticipants` tool handler of `src/tools/participants.ts`,
guarded by `confirmDeletion`. -/
def deleteParticipantsHandler (surveyId : String) (tokens : List String)
    (confirmDeletion : Bool) (gw : Except JsError (Option Json)) : HandlerOut :=
  if !confirmDeletion then
    HandlerOut.mk (ToolResponse.mk
      [TextItem.mk "You must confirm deletion by setting confirmDeletion to true"]
      true) []
  else
    match gw with
    | Except.ok result =>
        HandlerOut.mk (ToolResponse.mk
          [TextItem.mk (toString tokens.length ++ " participants deleted from survey "
             ++ surveyId),
           TextItem.mk (stringifyResultOpt result)] false) ["deleteParticipants"]
    | Except.error e =>
        HandlerOut.mk (ToolResponse.mk
          [TextItem.mk ("Error deleting participants: " ++ errText e)] true)
          ["deleteParticipants"]

/-- The legacy root-level `deleteParticipants` tool handler
(`src/participants.ts`, the file importing `./server.js`).  Its input schema
has only `surveyId` and `tokens` — no confirmation field — and its body
unconditionally calls `limesurveyAPI.getSessionKey` and then
`limesurveyAPI.request('delete_participants', [key, surveyId, tokens])`. -/
def deleteParticipantsLegacyHandler (surveyId : String) (_tokens : List String)
    (keyOutcome : Except JsError String)
    (reqOutcome : Except JsError (Option Json)) : HandlerOut :=
  match keyOutcome with
  | Except.error e =>
      HandlerOut.mk (ToolResponse.mk
        [TextItem.mk ("Error deleting participants: " ++ errText e)] true)
        ["getSessionKey"]
  | Except.ok _ =>
      match reqOutcome with
      | Except.ok result =>
          HandlerOut.mk (ToolResponse.mk
            [TextItem.mk ("Participants deleted from survey ID " ++ surveyId ++
               " successfully"),
             TextItem.mk (stringifyResultOpt result)] false)
            ["getSessionKey", "request"]
      | Except.error e =>
          HandlerOut.mk (ToolResponse.mk
            [TextItem.mk ("Error deleting participants: " ++ errText e)] true)
            ["getSessionKey", "request"]

/-- The `addResponse` tool handler (`src/tools/response-management.ts`). -/
def addResponseHandler (surveyId : String)
    (gw : Except JsError (Option Json)) : HandlerOut :=
  match gw with
  | Except.ok result =>
      HandlerOut.mk (ToolResponse.mk
        [TextItem.mk ("Response added successfully to survey " ++ surveyId ++
           " with ID: " ++ jsTemplate result)] false) ["addResponse"]
  | Except.error e =>
      HandlerOut.mk (ToolResponse.mk
        [TextItem.mk ("Error adding response: " ++ errText e)] true)
        ["addResponse"]

/-- Decoding collaborators of the export adapters: `Buffer.from(s, 'base64')
.toString('utf-8')` (failure carries the caught message) and the
`JSON.parse` + `JSON.stringify(.., null, 2)` round-trip (`none` on parse
failure). -/
structure DecodeOps where
  decodeBase64 : String → Except String String
  parseJsonPretty : String → Option String

/-- The text formats that `exportResponses` may decode:
`['csv', 'json', 'txt', 'html']`. -/
def exportTextFormats : List String := ["csv", "json", "txt", "html"]

/-- `Math.round(len * 0.75 / 1024)`: both products are exact in binary
floating point, so the value is exactly `(3*len + 2048) / 4096` rounded
down. -/
def sizeKB (len : Nat) : Nat := (3 * len + 2048) / 4096

/-- The preview text built by the `exportResponses` handler from decoded
data: for `json` a pretty-printed re-serialization when parsing succeeds,
otherwise the raw decoded text, truncated to 1000 characters with a
truncation marker keyed to the decoded length. -/
def exportPreviewBody (ops : DecodeOps) (documentType : String)
    (decodedData : String) : String :=
  let previewText0 :=
    if jsToLower documentType = "json" then
      match ops.parseJsonPretty decodedData with
      | some pretty => pretty.take 1000
      | none => decodedData.take 1000
    else decodedData.take 1000
  if decodedData.length > 1000 then previewText0 ++ "\n...[truncated]"
  else previewText0

/-- The size-report line of the `exportResponses` handler. -/
def exportSizeReport (surveyId documentType : String) (len : Nat) : String :=
  "Responses for survey ID " ++ surveyId ++ " exported successfully as " ++
    documentType ++ " (base64 encoded, ~" ++ toString (sizeKB len) ++ " KB)"

/-- The `exportResponses` tool handler (`src/tools/responses.ts`).  `gw` is
the outcome of `limesurveyAPI.exportResponses`; a text format with decoding
enabled and truthy (non-empty) data is base64-decoded into a preview, a
decoding failure falls back to the size report plus a failure note, and
binary formats (or disabled decoding, or empty data) get the size report
only. -/
def exportResponsesHandler (ops : DecodeOps) (surveyId documentType : String)
    (decodeOutput : Bool) (gw : Except JsError String) : HandlerOut :=
  match gw with
  | Except.error e =>
      HandlerOut.mk (ToolResponse.mk
        [TextItem.mk ("Error exporting responses: " ++ errText e)] true)
        ["exportResponses"]
  | Except.ok exportData =>
      let isBinaryFormat := !(exportTextFormats.contains (jsToLower documentType))
      if decodeOutput && !isBinaryFormat && (exportData != "") then
        match ops.decodeBase64 exportData with
        | Except.ok decodedData =>
            HandlerOut.mk (ToolResponse.mk
              [TextItem.mk ("Responses for survey ID " ++ surveyId ++
                 " exported successfully as " ++ documentType),
               TextItem.mk ("Preview of exported data:\n\n" ++
                 exportPreviewBody ops documentType decodedData)] false)
              ["exportResponses"]
        | Except.error em =>
            HandlerOut.mk (ToolResponse.mk
              [TextItem.mk (exportSizeReport surveyId documentType
                 exportData.length),
               TextItem.mk ("Failed to decode base64 data: " ++ em)] false)
              ["exportResponses"]
      else
        HandlerOut.mk (ToolResponse.mk
          [TextItem.mk (exportSizeReport surveyId documentType
             exportData.length)] false) ["exportResponses"]

/-- The statistics export document types (`z.enum(['pdf', 'xls', 'html'])`). -/
inductive StatsDocType where
  | pdf
  | xls
  | html
deriving Repr, DecidableEq

/-- File-extension string of a statistics document type. -/
def statsDocName : StatsDocType → String
  | StatsDocType.pdf => "pdf"
  | StatsDocType.xls => "xls"
  | StatsDocType.html => "html"

/-- The `exportStatistics` tool handler (`src/tools/statistics.ts`).  Only
the `html` format attempts a decode (for a 300-character preview); `pdf` and
`xls` report success without touching the payload.  Both branches report the
approximate size in KB. -/
def exportStatisticsHandler (ops : DecodeOps) (surveyId : String)
    (documentType : StatsDocType) (includeGraphs : Bool)
    (gw : Except JsError String) : HandlerOut :=
  match gw with
  | Except.error e =>
      HandlerOut.mk (ToolResponse.mk
        [TextItem.mk ("Error exporting statistics: " ++ errText e)] true)
        ["exportStatistics"]
  | Except.ok exportData =>
      let fileExtension := statsDocName documentType
      let previewText :=
        if documentType = StatsDocType.html then
          match ops.decodeBase64 exportData with
          | Except.ok decodedHtml =>
              "\nHTML Preview (first 300 characters):\n" ++
                decodedHtml.take 300 ++ "..."
          | Except.error _ => "\nUnable to generate HTML preview."
        else
          "\nThe " ++ jsToUpper fileExtension ++ " file was successfully generated."
      HandlerOut.mk (ToolResponse.mk
        [TextItem.mk ("Statistics for survey ID " ++ surveyId ++
           " exported successfully as " ++ jsToUpper (statsDocName documentType) ++
           (if includeGraphs then " with graphs" else "") ++ "."),
         TextItem.mk ("The exported statistics file is base64 encoded and has a size of approximately "
           ++ toString (sizeKB exportData.length) ++ " KB." ++ previewText)]
        false) ["exportStatistics"]

/-- Tools registered by `./tools/surveys.js` (the first half of the surveys
source file), in registration order. -/
def surveysModuleTools : List String :=
  ["findSurvey", "listSurveys", "getSurveyProperties", "activateSurvey",
   "getSurveyLanguageProperties", "getAvailableLanguages",
   "getSurveyLanguages", "getQuotaInformation"]

/-- Tools registered by `./tools/questions.js`. -/
def questionsModuleTools : List String :=
  ["listQuestions", "listQuestionGroups", "getQuestionProperties"]

/-- Tools registered by `./tools/statistics.js`. -/
def statisticsModuleTools : List String := ["exportStatistics"]

/-- Tools registered by `./tools/participants.js`. -/
def participantsModuleTools : List String :=
  ["addParticipant", "listParticipants", "getParticipantProperties",
   "addMultipleParticipants", "listFilteredParticipants", "deleteParticipants"]

/-- Tools registered by `./tools/responses.js`. -/
def responsesModuleTools : List String :=
  ["getResponseSummary", "exportResponses"]

/-- Tools registered by `./tools/survey-management.js`. -/
def surveyManagementModuleTools : List String :=
  ["importSurvey", "exportSurvey", "copySurvey", "deleteSurvey",
   "getQuestionnaireDefinition"]

/-- Tools registered by importing one module path. -/
def moduleTools : String → List String
  | "./tools/surveys.js" => surveysModuleTools
  | "./tools/questions.js" => questionsModuleTools
  | "./tools/statistics.js" => statisticsModuleTools
  | "./tools/participants.js" => participantsModuleTools
  | "./tools/responses.js" => responsesModuleTools
  | "./tools/survey-management.js" => surveyManagementModuleTools
  | _ => []

/-- The `readOnlyModules` list of the read-only-capable server variant. -/
def readOnlyModules : List String :=
  ["./tools/surveys.js", "./tools/questions.js", "./tools/statistics.js"]

/-- The `writeModules` list of the read-only-capable server variant. -/
def writeModules : List String :=
  ["./tools/participants.js", "./tools/responses.js",
   "./tools/survey-management.js"]

/-- The set of tools registered at startup: `startServer` always imports the
read-only modules and appends the write modules only when
`READONLY_MODE !== 'true'`. -/
def registeredTools (isReadOnlyMode : Bool) : List String :=
  List.flatten ((readOnlyModules ++ if isReadOnlyMode then [] else writeModules).map
    moduleTools)

/-- The remote (domain) procedures each registered tool can invoke through
the Gateway, read off the tool sources (`get_session_key` plumbing
excluded). -/
def toolRpcMethods : String → List String
  | "findSurvey" => ["list_surveys"]
  | "listSurveys" => ["list_surveys"]
  | "getSurveyProperties" => ["get_survey_properties"]
  | "activateSurvey" => ["activate_survey"]
  | "getSurveyLanguageProperties" => ["get_language_properties"]
  | "getAvailableLanguages" => ["get_site_settings"]
  | "getSurveyLanguages" => ["get_survey_languages"]
  | "getQuotaInformation" => ["get_quota"]
  | "listQuestions" => ["list_questions"]
  | "listQuestionGroups" => ["list_groups"]
  | "getQuestionProperties" => ["get_question_properties"]
  | "exportStatistics" => ["export_statistics"]
  | "addParticipant" => ["add_participants"]
  | "listParticipants" => ["list_participants"]
  | "getParticipantProperties" => ["get_participant_properties"]
  | "addMultipleParticipants" => ["add_participants"]
  | "listFilteredParticipants" => ["list_participants"]
  | "deleteParticipants" => ["delete_participants"]
  | "getResponseSummary" => ["get_summary"]
  | "exportResponses" => ["export_responses"]
  | "importSurvey" => ["import_survey"]
  | "exportSurvey" => ["export_survey"]
  | "copySurvey" => ["copy_survey"]
  | "deleteSurvey" => ["delete_survey"]
  | "getQuestionnaireDefinition" => ["get_questionnaire_definition"]
  | _ => []

/-- Remote procedures that mutate state on the LimeSurvey server. -/
def writeRpcMethods : List String :=
  ["activate_survey", "add_participants", "add_response", "copy_survey",
   "delete_all_responses", "delete_participants", "delete_response",
   "delete_survey", "import_group", "import_responses", "import_survey",
   "reset_survey_logic_file", "set_response_status", "update_response",
   "upload_file"]

/-- A tool is mutating when any remote procedure it invokes is a write. -/
def toolMutates (t : String) : Bool :=
  (toolRpcMethods t).any (fun m => writeRpcMethods.contains m)

/-- Demo configuration with both credentials set and truthy. -/
def cfgDemo : Config := Config.mk (some "u") (some "p")

/-- Demo configuration with the password variable unset. -/
def cfgNoPassword : Config := Config.mk (some "u") none

/-- Demo remote endpoint: authentication succeeds with `KEY123`; every other
procedure answers with an `Invalid session key` error envelope. -/
def invalidSessionRemote : Remote := fun method _ =>
  if method = "get_session_key" then
    TransportOutcome.success (LimeSurveyResponse.mk 1 (some (Json.str "KEY123")) none)
  else
    TransportOutcome.success
      (LimeSurveyResponse.mk 1 none (some (LSError.str "Invalid session key")))

/-- Demo remote endpoint on which every procedure succeeds: authentication
returns `KEY123` and everything else an empty-array result. -/
def happyRemote : Remote := fun method _ =>
  if method = "get_session_key" then
    TransportOutcome.success (LimeSurveyResponse.mk 1 (some (Json.str "KEY123")) none)
  else
    TransportOutcome.success (LimeSurveyResponse.mk 1 (some (Json.arr [])) none)

/-- Demo remote endpoint whose transport always fails. -/
def downRemote : Remote := fun _ _ => TransportOutcome.failure "ECONNREFUSED"

/-- Demo remote endpoint that answers authentication with a `null` result. -/
def nullKeyRemote : Remote := fun _ _ =>
  TransportOutcome.success (LimeSurveyResponse.mk 1 none none)

/-- Demo decoding collaborators: base64 decoding fails (with message `bad
input`) exactly on the marker string `%%%`, and JSON parsing always fails. -/
def depsDemo : DecodeOps :=
  DecodeOps.mk
    (fun sIn => if sIn = "%%%" then Except.error "bad input"
     else Except.ok "id,q1\n1,yes\n")
    (fun _ => none)

/-- A non-empty trim forces a non-empty string. -/
theorem ne_empty_of_trim_ne_empty {k : String} (h : jsTrim k ≠ "") : k ≠ "" := by
  intro he
  rw [he] at h
  exact h (by decide)

/-- C2: when the decoded envelope carries no `error` field, `request`
returns the envelope's `result` field verbatim — including `null`, an empty
array or an empty object — and does not report a failure. -/
theorem C2_result_verbatim (data : LimeSurveyResponse)
    (h : data.error = none) :
    request (TransportOutcome.success data) = Except.ok data.result := by
  simp [request, h, lsErrorTruthy]

/-- Witness for C2 at `null`, empty-array and empty-object results. -/
theorem C2_result_verbatim_witness :
    request (TransportOutcome.success (LimeSurveyResponse.mk 1 (some Json.null) none)) =
      Except.ok (some Json.null) ∧
    request (TransportOutcome.success (LimeSurveyResponse.mk 1 (some (Json.arr [])) none)) =
      Except.ok (some (Json.arr [])) ∧
    request (TransportOutcome.success (LimeSurveyResponse.mk 1 (some (Json.obj [])) none)) =
      Except.ok (some (Json.obj [])) :=
  ⟨C2_result_verbatim _ rfl, C2_result_verbatim _ rfl, C2_result_verbatim _ rfl⟩

/-- C1 counterexample: for the envelope `{error: "Invalid session key"}` on a
`list_surveys` call, the convenience method rejects — but with a thrown
`Error` whose only payload, its message, is the formatted string
`LimeSurvey API error: "Invalid session key"`, not the raw error value
`Invalid session key`; moreover an envelope whose `error` field is present
but falsy (the empty string) does not raise at all. -/
theorem C1_counterexample :
    (listSurveys cfgDemo invalidSessionRemote none).1 =
      Except.error (JsError.mk "LimeSurvey API error: \"Invalid session key\"") ∧
    "LimeSurvey API error: \"Invalid session key\"" ≠ "Invalid session key" ∧
    request (TransportOutcome.success
        (LimeSurveyResponse.mk 1 (some (Json.str "ok")) (some (LSError.str "")))) =
      Except.ok (some (Json.str "ok")) := by
  refine ⟨by rfl, by decide, by rfl⟩

/-- C1 (amended): whenever the decoded envelope carries a truthy `error`
field, `request` raises an `Error` whose message is `LimeSurvey API error: `
followed by the `JSON.stringify` serialization of the raw error payload,
even though the HTTP POST itself succeeded. -/
theorem C1_error_envelope_raises (data : LimeSurveyResponse) (e : LSError)
    (he : data.error = some e) (ht : lsErrorTruthy (some e) = true) :
    request (TransportOutcome.success data) =
      Except.error (JsError.mk ("LimeSurvey API error: " ++ stringifyLSError e)) := by
  simp [request, he, ht, apiErrorMessage]

/-- Witness for the amended C1 at the `Invalid session key` payload. -/
theorem C1_error_envelope_raises_witness :
    request (TransportOutcome.success
        (LimeSurveyResponse.mk 1 none (some (LSError.str "Invalid session key")))) =
      Except.error (JsError.mk
        ("LimeSurvey API error: " ++ stringifyLSError (LSError.str "Invalid session key"))) :=
  C1_error_envelope_raises _ (LSError.str "Invalid session key") rfl (by decide)

/-- C5: `releaseSessionKey` is best-effort and never raises (its type is a
plain boolean result): with no cached token it returns `true` without an
outbound call; with a cached token it issues exactly one
`release_session_key` call, clearing the cache and returning `true` on
success, and returning `false` with the cache untouched on failure. -/
theorem C5_release_best_effort (remote : Remote) (k : String) (hk : k ≠ "") :
    releaseSessionKey remote none = (true, none, []) ∧
    (∀ v, request (remote "release_session_key" [Json.str k]) = Except.ok v →
       releaseSessionKey remote (some k) =
         (true, none, [OutCall.mk "release_session_key" [Json.str k]])) ∧
    (∀ e, request (remote "release_session_key" [Json.str k]) = Except.error e →
       releaseSessionKey remote (some k) =
         (false, some k, [OutCall.mk "release_session_key" [Json.str k]])) := by
  refine ⟨by simp [releaseSessionKey, strTruthy], ?_, ?_⟩
  · intro v hv
    simp [releaseSessionKey, strTruthy, hk, hv]
  · intro e he
    simp [releaseSessionKey, strTruthy, hk, he]

/-- Witness for C5: a successful release clears the cache and returns true,
a transport-failing release returns false, and release with no cached token
issues no call. -/
theorem C5_release_best_effort_witness :
    releaseSessionKey happyRemote (some "KEY123") =
      (true, none, [OutCall.mk "release_session_key" [Json.str "KEY123"]]) ∧
    releaseSessionKey downRemote (some "KEY123") =
      (false, some "KEY123", [OutCall.mk "release_session_key" [Json.str "KEY123"]]) ∧
    releaseSessionKey happyRemote none = (true, none, []) :=
  ⟨(C5_release_best_effort happyRemote "KEY123" (by decide)).2.1 _ rfl,
   (C5_release_best_effort downRemote "KEY123" (by decide)).2.2 _ rfl,
   (C5_release_best_effort happyRemote "KEY123" (by decide)).1⟩

/-- Truthiness of an unset optional string. -/
theorem strTruthy_none : strTruthy none = false := rfl

/-- Truthiness of a set optional string. -/
theorem strTruthy_some (s : String) : strTruthy (some s) = decide (s ≠ "") := rfl

/-- C6: a `getToken` call with no cached token fails with the
configuration-error message and issues no outbound call when a credential is
missing or empty; and when credentials are present but the authenticate call
returns anything that is not a non-empty string, it fails with the
empty-or-invalid-response error and caches no token. -/
theorem C6_getToken_validation (cfg : Config) (remote : Remote)
    (v : Option Json) :
    ((strTruthy cfg.username = false ∨ strTruthy cfg.password = false) →
       getSessionKey cfg remote none =
         (Except.error (JsError.mk credentialsMissingMessage), none, [])) ∧
    (∀ u p, cfg.username = some u → cfg.password = some p →
       u ≠ "" → p ≠ "" →
       request (remote "get_session_key" [Json.str u, Json.str p]) = Except.ok v →
       (∀ k, v = some (Json.str k) → k = "") →
       getSessionKey cfg remote none =
         (Except.error (JsError.mk (wrapKeyFailure emptyKeyMessage)), none,
          [OutCall.mk "get_session_key" [Json.str u, Json.str p]])) := by
  constructor
  · intro h
    rcases h with h | h <;> simp [getSessionKey, strTruthy_none, h]
  · intro u p hu hp hu2 hp2 hreq hv
    simp only [getSessionKey, strTruthy_none, hu, hp, strTruthy_some,
      Option.getD_some, Bool.false_eq_true, if_false]
    simp only [hu2, hp2, decide_not, ne_eq, decide_not, Bool.not_false,
      Bool.not_true, Bool.or_self, Bool.false_or, Bool.not_not, decide_False,
      Bool.or_false, if_false]
    rw [hreq]
    have h0 : jsTrim "" = "" := by decide
    rcases v with _ | j
    · simp
    · cases j with
      | str k =>
          have hk : k = "" := hv k rfl
          subst hk
          simp [h0]
      | null => simp
      | bool b => simp
      | num n => simp
      | arr xs => simp
      | obj fs => simp

/-- Witness for C6: a missing password short-circuits before any call, and a
`null` authenticate result fails with the empty-or-invalid message. -/
theorem C6_getToken_validation_witness :
    getSessionKey cfgNoPassword happyRemote none =
      (Except.error (JsError.mk credentialsMissingMessage), none, []) ∧
    getSessionKey cfgDemo nullKeyRemote none =
      (Except.error (JsError.mk (wrapKeyFailure emptyKeyMessage)), none,
       [OutCall.mk "get_session_key" [Json.str "u", Json.str "p"]]) :=
  ⟨(C6_getToken_validation cfgNoPassword happyRemote none).1 (Or.inr rfl),
   (C6_getToken_validation cfgDemo nullKeyRemote none).2 "u" "p" rfl rfl
     (by decide) (by decide) rfl (by intro k hk; cases hk)⟩

/-- A truthy cached key is returned unchanged with no outbound call. -/
theorem getSessionKey_cached (cfg : Config) (remote : Remote) (k : String)
    (hk : k ≠ "") :
    getSessionKey cfg remote (some k) = (Except.ok k, some k, []) := by
  simp [getSessionKey, strTruthy_some, hk]

/-- No convenience method uses the authenticate procedure name. -/
theorem rpcName_ne_auth (c : ConvMethod) : rpcName c ≠ "get_session_key" := by
  cases c <;> decide

/-- `countAuth` distributes over concatenated traces. -/
theorem countAuth_append (a b : List OutCall) :
    countAuth (a ++ b) = countAuth a + countAuth b :=
  List.countP_append _ _ _

/-- With an untruthy cache and a successfully authenticating remote,
`getSessionKey` returns and caches the oracle key with exactly one outbound
call, the authenticate call. -/
theorem getSessionKey_fresh (cfg : Config) (remote : Remote) (k : String)
    (h : authOK cfg remote k) (st : Option String)
    (hst : strTruthy st = false) :
    (getSessionKey cfg remote st).1 = Except.ok k ∧
    (getSessionKey cfg remote st).2.1 = some k ∧
    countAuth (getSessionKey cfg remote st).2.2 = 1 := by
  obtain ⟨u, p, hu, hp, hune, hpne, hreq, htrim⟩ := h
  have hres : getSessionKey cfg remote st =
      (Except.ok k, some k, [OutCall.mk "get_session_key" [Json.str u, Json.str p]]) := by
    simp only [getSessionKey, hst, Bool.false_eq_true, if_false, hu, hp,
      strTruthy_some, Option.getD_some]
    simp only [hune, hpne, ne_eq, decide_not, Bool.not_not, decide_False,
      Bool.not_false, Bool.or_self, Bool.false_or, if_false]
    rw [hreq]
    simp [htrim]
  rw [hres]
  simp [countAuth]

/-- Running any release-free sequence of Gateway operations from a state
holding a truthy cached key keeps that key, issues no authenticate call, and
answers every `getKey` operation with the cached key. -/
theorem runOps_cached (cfg : Config) (remote : Remote) (k : String)
    (hk : k ≠ "") (ops : List Op) (hops : ∀ op ∈ ops, op ≠ Op.release) :
    (runOps cfg remote (some k) ops).1 = some k ∧
    countAuth (runOps cfg remote (some k) ops).2.1 = 0 ∧
    ∀ r ∈ (runOps cfg remote (some k) ops).2.2, r = Except.ok k := by
  induction ops with
  | nil => simp [runOps, countAuth]
  | cons op ops ih =>
      have hops1 : ∀ o ∈ ops, o ≠ Op.release := fun o ho =>
        hops o (List.mem_cons_of_mem _ ho)
      obtain ⟨ih1, ih2, ih3⟩ := ih hops1
      cases op with
      | getKey =>
          simp only [runOps, getSessionKey_cached cfg remote k hk]
          refine ⟨ih1, ?_, ?_⟩
          · simpa [countAuth_append] using ih2
          · intro r hr
            rcases List.mem_cons.mp hr with h | h
            · exact h
            · exact ih3 r h
      | release => exact absurd rfl (hops _ (List.mem_cons_self _ _))
      | conv c args =>
          simp only [runOps, callWithSession,
            getSessionKey_cached cfg remote k hk]
          refine ⟨ih1, ?_, ih3⟩
          rw [List.nil_append, countAuth_append]
          have hc : countAuth [OutCall.mk (rpcName c) (Json.str k :: args)] = 0 := by
            simp [countAuth, List.countP_cons, rpcName_ne_auth c]
          rw [hc, ih2]

/-- Running any release-free sequence of Gateway operations from the empty
cache, under a successfully authenticating remote, issues at most one
authenticate call and answers every `getKey` operation with the oracle
key. -/
theorem runOps_fresh (cfg : Config) (remote : Remote) (k : String)
    (h : authOK cfg remote k) (ops : List Op)
    (hops : ∀ op ∈ ops, op ≠ Op.release) :
    countAuth (runOps cfg remote none ops).2.1 ≤ 1 ∧
    ∀ r ∈ (runOps cfg remote none ops).2.2, r = Except.ok k := by
  have hk : k ≠ "" := by
    obtain ⟨u, p, _, _, _, _, _, htrim⟩ := h
    exact ne_empty_of_trim_ne_empty htrim
  have hfresh := getSessionKey_fresh cfg remote k h none rfl
  cases ops with
  | nil => simp [runOps, countAuth]
  | cons op ops =>
      have hops1 : ∀ o ∈ ops, o ≠ Op.release := fun o ho =>
        hops o (List.mem_cons_of_mem _ ho)
      obtain ⟨hcache1, hcache2, hcache3⟩ := runOps_cached cfg remote k hk ops hops1
      cases op with
      | getKey =>
          simp only [runOps]
          rw [hfresh.1, hfresh.2.1]
          refine ⟨?_, ?_⟩
          · rw [countAuth_append, hfresh.2.2, hcache2]
          · intro r hr
            rcases List.mem_cons.mp hr with hcase | hcase
            · exact hcase
            · exact hcache3 r hcase
      | release => exact absurd rfl (hops _ (List.mem_cons_self _ _))
      | conv c args =>
          simp only [runOps, callWithSession]
          obtain ⟨u, p, hu, hp, hune, hpne, hreq, htrim⟩ := h
          have hres : getSessionKey cfg remote none =
              (Except.ok k, some k,
               [OutCall.mk "get_session_key" [Json.str u, Json.str p]]) := by
            simp only [getSessionKey, strTruthy_none, Bool.false_eq_true,
              if_false, hu, hp, strTruthy_some, Option.getD_some]
            simp only [hune, hpne, ne_eq, decide_not, Bool.not_not,
              decide_False, Bool.not_false, Bool.or_self, Bool.false_or,
              if_false]
            rw [hreq]
            simp [htrim]
          rw [hres]
          refine ⟨?_, ?_⟩
          · rw [countAuth_append, countAuth_append, hcache2]
            have hone : countAuth
                [OutCall.mk "get_session_key" [Json.str u, Json.str p]] = 1 := by
              simp [countAuth, List.countP_cons]
            have hzero : countAuth
                [OutCall.mk (rpcName c) (Json.str k :: args)] = 0 := by
              simp [countAuth, List.countP_cons, rpcName_ne_auth c]
            rw [hone, hzero]
          · exact hcache3

/-- A successful `releaseSessionKey` always leaves an untruthy cache. -/
theorem release_success_state (remote : Remote) (st : Option String)
    (h : (releaseSessionKey remote st).1 = true) :
    strTruthy (releaseSessionKey remote st).2.1 = false := by
  cases hst : strTruthy st with
  | false => simp [releaseSessionKey, hst]
  | true =>
      simp only [releaseSessionKey, hst, Bool.not_true, Bool.false_eq_true,
        if_false] at h ⊢
      cases hreq : request (remote "release_session_key" [Json.str (st.getD "")]) with
      | ok v => simp [hreq, strTruthy_none]
      | error e => rw [hreq] at h; simp at h

/-- C3: under a successfully authenticating remote, any release-free
sequence of Gateway operations starting from the empty cache issues at most
one outbound authenticate call and answers every `getKey` operation with the
same oracle key; and after any successful `releaseToken`, the next call
requiring a token returns the key with exactly one new authenticate call. -/
theorem C3_token_reuse (cfg : Config) (remote : Remote) (k : String)
    (h : authOK cfg remote k) (ops : List Op)
    (hops : ∀ op ∈ ops, op ≠ Op.release) :
    countAuth (runOps cfg remote none ops).2.1 ≤ 1 ∧
    (∀ r ∈ (runOps cfg remote none ops).2.2, r = Except.ok k) ∧
    (∀ st, (releaseSessionKey remote st).1 = true →
       (getSessionKey cfg remote (releaseSessionKey remote st).2.1).1 =
         Except.ok k ∧
       countAuth (getSessionKey cfg remote
           (releaseSessionKey remote st).2.1).2.2 = 1) := by
  obtain ⟨h1, h2⟩ := runOps_fresh cfg remote k h ops hops
  refine ⟨h1, h2, ?_⟩
  intro st hrel
  have hfr := getSessionKey_fresh cfg remote k h _
    (release_success_state remote st hrel)
  exact ⟨hfr.1, hfr.2.2⟩

/-- Witness for C3 on a concrete happy-path remote and the operation
sequence getKey; listSurveys; getKey. -/
theorem C3_token_reuse_witness :
    countAuth (runOps cfgDemo happyRemote none
        [Op.getKey, Op.conv ConvMethod.listSurveys [], Op.getKey]).2.1 ≤ 1 ∧
    (∀ r ∈ (runOps cfgDemo happyRemote none
        [Op.getKey, Op.conv ConvMethod.listSurveys [], Op.getKey]).2.2,
       r = Except.ok "KEY123") ∧
    (∀ st, (releaseSessionKey happyRemote st).1 = true →
       (getSessionKey cfgDemo happyRemote
           (releaseSessionKey happyRemote st).2.1).1 = Except.ok "KEY123" ∧
       countAuth (getSessionKey cfgDemo happyRemote
           (releaseSessionKey happyRemote st).2.1).2.2 = 1) :=
  C3_token_reuse cfgDemo happyRemote "KEY123"
    ⟨"u", "p", rfl, rfl, by decide, by decide, rfl, by decide⟩
    [Op.getKey, Op.conv ConvMethod.listSurveys [], Op.getKey]
    (by
      intro op hop
      rcases List.mem_cons.mp hop with rfl | hop
      · nofun
      rcases List.mem_cons.mp hop with rfl | hop
      · nofun
      rcases List.mem_cons.mp hop with rfl | hop
      · nofun
      · cases hop)

/-- C10: when the outbound release call fails, `releaseSessionKey` returns
`false` and leaves the cached key unchanged, and every subsequent
release-free sequence of operations issues no authenticate call, each
`getKey` returning the previously cached key. -/
theorem C10_failed_release_keeps_token (cfg : Config) (remote : Remote)
    (k : String) (hk : k ≠ "") (e : JsError)
    (hfail : request (remote "release_session_key" [Json.str k]) =
      Except.error e)
    (ops : List Op) (hops : ∀ op ∈ ops, op ≠ Op.release) :
    releaseSessionKey remote (some k) =
      (false, some k, [OutCall.mk "release_session_key" [Json.str k]]) ∧
    getSessionKey cfg remote (some k) = (Except.ok k, some k, []) ∧
    countAuth (runOps cfg remote (some k) ops).2.1 = 0 ∧
    ∀ r ∈ (runOps cfg remote (some k) ops).2.2, r = Except.ok k := by
  refine ⟨?_, getSessionKey_cached cfg remote k hk,
    (runOps_cached cfg remote k hk ops hops).2.1,
    (runOps_cached cfg remote k hk ops hops).2.2⟩
  simp [releaseSessionKey, strTruthy_some, hk, hfail]

/-- Witness for C10 on a remote whose transport is down: the release fails,
the key stays cached, and two subsequent operations authenticate zero
times. -/
theorem C10_failed_release_keeps_token_witness :
    releaseSessionKey downRemote (some "KEY123") =
      (false, some "KEY123",
       [OutCall.mk "release_session_key" [Json.str "KEY123"]]) ∧
    getSessionKey cfgDemo downRemote (some "KEY123") =
      (Except.ok "KEY123", some "KEY123", []) ∧
    countAuth (runOps cfgDemo downRemote (some "KEY123")
        [Op.getKey, Op.conv ConvMethod.listSurveys []]).2.1 = 0 ∧
    ∀ r ∈ (runOps cfgDemo downRemote (some "KEY123")
        [Op.getKey, Op.conv ConvMethod.listSurveys []]).2.2,
      r = Except.ok "KEY123" :=
  C10_failed_release_keeps_token cfgDemo downRemote "KEY123" (by decide)
    (JsError.mk "ECONNREFUSED") rfl
    [Op.getKey, Op.conv ConvMethod.listSurveys []]
    (by
      intro op hop
      rcases List.mem_cons.mp hop with rfl | hop
      · nofun
      rcases List.mem_cons.mp hop with rfl | hop
      · nofun
      · cases hop)

/-- C4 counterexample: the legacy root-level `deleteParticipants` adapter —
an adapter of an irreversible operation — declares no confirmation field at
all, and on a validated input (so with the confirmation field absent) it
performs its Gateway calls and returns a success response instead of an
error-flagged response with zero Gateway calls. -/
theorem C4_counterexample :
    (deleteParticipantsLegacyHandler "123" ["TOKEN1"] (Except.ok "KEY123")
        (Except.ok (some (Json.obj [("status", Json.str "OK")])))).gatewayCalls =
      ["getSessionKey", "request"] ∧
    (["getSessionKey", "request"] : List String) ≠ [] ∧
    (deleteParticipantsLegacyHandler "123" ["TOKEN1"] (Except.ok "KEY123")
        (Except.ok (some (Json.obj [("status", Json.str "OK")])))).response.isError =
      false := by
  exact ⟨rfl, by decide, rfl⟩

/-- C4 (amended): the four confirmation-gated irreversible adapters
(`deleteAllResponses`, `resetSurveyResponses`, `deleteSurvey`, and the
`deleteParticipants` of `src/tools/participants.ts`) make zero Gateway calls
and return an error-flagged response when the confirmation flag is false,
and exactly one Gateway call when it is true; the legacy root-level
`deleteParticipants` adapter has no confirmation field and always makes its
Gateway calls. -/
theorem C4_confirmation_gated (surveyId : String) (tokens : List String)
    (keyRes : Except JsError String) (gw : Except JsError (Option Json)) :
    (deleteAllResponsesHandler surveyId false gw).gatewayCalls = [] ∧
    (deleteAllResponsesHandler surveyId false gw).response.isError = true ∧
    (deleteAllResponsesHandler surveyId true gw).gatewayCalls =
      ["deleteAllResponses"] ∧
    (resetSurveyResponsesHandler surveyId false gw).gatewayCalls = [] ∧
    (resetSurveyResponsesHandler surveyId false gw).response.isError = true ∧
    (resetSurveyResponsesHandler surveyId true gw).gatewayCalls =
      ["resetSurveyResponses"] ∧
    (deleteSurveyHandler surveyId false gw).gatewayCalls = [] ∧
    (deleteSurveyHandler surveyId false gw).response.isError = true ∧
    (deleteSurveyHandler surveyId true gw).gatewayCalls = ["deleteSurvey"] ∧
    (deleteParticipantsHandler surveyId tokens false gw).gatewayCalls = [] ∧
    (deleteParticipantsHandler surveyId tokens false gw).response.isError = true ∧
    (deleteParticipantsHandler surveyId tokens true gw).gatewayCalls =
      ["deleteParticipants"] ∧
    (deleteParticipantsLegacyHandler surveyId tokens keyRes gw).gatewayCalls ≠
      [] := by
  cases gw <;> cases keyRes <;>
    simp [deleteAllResponsesHandler, resetSurveyResponsesHandler,
      deleteSurveyHandler, deleteParticipantsHandler,
      deleteParticipantsLegacyHandler]

/-- C7: each modelled adapter catches any error raised by its Gateway call
and returns a single text item carrying the error message (with the
`Unknown error` fallback for a message-less error) and the `isError` flag
set; the handlers are total functions, so no error escapes. -/
theorem C7_adapter_error_boundary (surveyId fmt : String)
    (tokens : List String) (decodeOutput includeGraphs : Bool)
    (ops : DecodeOps) (sdt : StatsDocType) (e : JsError) :
    (addResponseHandler surveyId (Except.error e)).response =
      ToolResponse.mk [TextItem.mk ("Error adding response: " ++ errText e)]
        true ∧
    (exportResponsesHandler ops surveyId fmt decodeOutput
        (Except.error e)).response =
      ToolResponse.mk [TextItem.mk ("Error exporting responses: " ++ errText e)]
        true ∧
    (exportStatisticsHandler ops surveyId sdt includeGraphs
        (Except.error e)).response =
      ToolResponse.mk
        [TextItem.mk ("Error exporting statistics: " ++ errText e)] true ∧
    (deleteAllResponsesHandler surveyId true (Except.error e)).response =
      ToolResponse.mk [TextItem.mk ("Error deleting responses: " ++ errText e)]
        true ∧
    (deleteParticipantsLegacyHandler surveyId tokens (Except.error e)
        (Except.ok none)).response =
      ToolResponse.mk
        [TextItem.mk ("Error deleting participants: " ++ errText e)] true ∧
    errText (JsError.mk "") = "Unknown error" ∧
    (e.message ≠ "" → errText e = e.message) := by
  refine ⟨rfl, rfl, rfl, rfl, rfl, by decide, ?_⟩
  intro h
  simp [errText, h]

/-- Witness for C7 at a concrete error message and a message-less error. -/
theorem C7_adapter_error_boundary_witness :
    (addResponseHandler "123" (Except.error (JsError.mk "boom"))).response =
      ToolResponse.mk
        [TextItem.mk ("Error adding response: " ++ errText (JsError.mk "boom"))]
        true ∧
    errText (JsError.mk "boom") = "boom" ∧
    errText (JsError.mk "") = "Unknown error" :=
  ⟨(C7_adapter_error_boundary "123" "csv" [] true true depsDemo
      StatsDocType.pdf (JsError.mk "boom")).1,
   (C7_adapter_error_boundary "123" "csv" [] true true depsDemo
      StatsDocType.pdf (JsError.mk "boom")).2.2.2.2.2.2 (by decide),
   (C7_adapter_error_boundary "123" "csv" [] true true depsDemo
      StatsDocType.pdf (JsError.mk "boom")).2.2.2.2.2.1⟩

/-- C9: with the read-only mode flag enabled, the server still registers the
`activateSurvey` tool — it is registered by `./tools/surveys.js`, which is
listed among the read-only modules — and that tool invokes the
`activate_survey` remote procedure, a write operation. -/
theorem C9_readonly_registers_mutating_tool :
    "activateSurvey" ∈ registeredTools true ∧
    toolMutates "activateSurvey" = true ∧
    toolRpcMethods "activateSurvey" = ["activate_survey"] := by
  decide

/-- C8 counterexample: for the text format `csv` with decoding enabled but
an empty export payload, the adapter output carries no decoded preview — it
falls into the size-report branch — contradicting the claim that every text
format export with decoding enabled contains a decoded preview. -/
theorem C8_counterexample :
    (exportResponsesHandler depsDemo "123" "csv" true
        (Except.ok "")).response.content =
      [TextItem.mk
        "Responses for survey ID 123 exported successfully as csv (base64 encoded, ~0 KB)"] ∧
    (∀ t ∈ (exportResponsesHandler depsDemo "123" "csv" true
        (Except.ok "")).response.content,
       List.isPrefixOf ("Preview of exported data:".toList) t.text.toList =
         false) := by
  exact ⟨rfl, by decide⟩

/-- C8 (amended): with decoding enabled, a known text format and a non-empty
payload, the adapter output contains the base64-decoded preview rather than
the raw base64 string; a format outside the text list (in particular the
binary pdf/xls/doc formats) gets only the approximate-size report with no
decoded preview; a base64-decoding failure yields the size report plus a
decode-failure note; and the statistics exporter on `pdf` reports the
approximate size in KB without attempting a decode. -/
theorem C8_export_decode (ops : DecodeOps) (surveyId fmt data d em : String) :
    (jsToLower fmt ∈ exportTextFormats → data ≠ "" →
       ops.decodeBase64 data = Except.ok d →
       (exportResponsesHandler ops surveyId fmt true (Except.ok data)).response =
         ToolResponse.mk
           [TextItem.mk ("Responses for survey ID " ++ surveyId ++
              " exported successfully as " ++ fmt),
            TextItem.mk ("Preview of exported data:\n\n" ++
              exportPreviewBody ops fmt d)] false) ∧
    (jsToLower fmt ∉ exportTextFormats →
       (exportResponsesHandler ops surveyId fmt true (Except.ok data)).response =
         ToolResponse.mk
           [TextItem.mk (exportSizeReport surveyId fmt data.length)] false) ∧
    (jsToLower fmt ∈ exportTextFormats → data ≠ "" →
       ops.decodeBase64 data = Except.error em →
       (exportResponsesHandler ops surveyId fmt true (Except.ok data)).response =
         ToolResponse.mk
           [TextItem.mk (exportSizeReport surveyId fmt data.length),
            TextItem.mk ("Failed to decode base64 data: " ++ em)] false) ∧
    ((exportStatisticsHandler ops surveyId StatsDocType.pdf false
        (Except.ok data)).response =
       ToolResponse.mk
         [TextItem.mk ("Statistics for survey ID " ++ surveyId ++
            " exported successfully as PDF."),
          TextItem.mk ("The exported statistics file is base64 encoded and has a size of approximately "
            ++ toString (sizeKB data.length) ++
            " KB.\nThe PDF file was successfully generated.")] false) := by
  have hpdf : jsToUpper "pdf" = "PDF" := by decide
  refine ⟨?_, ?_, ?_, ?_⟩
  · intro h1 h2 h3
    have hdata : (data != "") = true := by simpa [bne_iff_ne] using h2
    simp [exportResponsesHandler, h1, hdata, h3]
  · intro h1
    simp [exportResponsesHandler, h1]
  · intro h1 h2 h3
    have hdata : (data != "") = true := by simpa [bne_iff_ne] using h2
    simp [exportResponsesHandler, h1, hdata, h3]
  · simp only [exportStatisticsHandler, statsDocName, hpdf, Bool.false_eq_true,
      if_false, String.append_assoc]
    congr 1

/-- Witness for the amended C8: a csv export with non-empty payload decodes
to a preview, a pdf export reports its size, and a failing decode produces
the failure note. -/
theorem C8_export_decode_witness :
    (exportResponsesHandler depsDemo "123" "csv" true
        (Except.ok "aWQscTEKMSx5ZXMK")).response =
      ToolResponse.mk
        [TextItem.mk "Responses for survey ID 123 exported successfully as csv",
         TextItem.mk ("Preview of exported data:\n\n" ++
           exportPreviewBody depsDemo "csv" "id,q1\n1,yes\n")] false ∧
    (exportResponsesHandler depsDemo "123" "pdf" true
        (Except.ok "aWQscTEKMSx5ZXMK")).response =
      ToolResponse.mk
        [TextItem.mk (exportSizeReport "123" "pdf" 16)] false ∧
    (exportResponsesHandler depsDemo "123" "csv" true
        (Except.ok "%%%")).response =
      ToolResponse.mk
        [TextItem.mk (exportSizeReport "123" "csv" 3),
         TextItem.mk "Failed to decode base64 data: bad input"] false ∧
    (exportStatisticsHandler depsDemo "123" StatsDocType.pdf false
        (Except.ok "aWQscTEKMSx5ZXMK")).response =
      ToolResponse.mk
        [TextItem.mk "Statistics for survey ID 123 exported successfully as PDF.",
         TextItem.mk ("The exported statistics file is base64 encoded and has a size of approximately "
           ++ toString (sizeKB 16) ++
           " KB.\nThe PDF file was successfully generated.")] false :=
  ⟨(C8_export_decode depsDemo "123" "csv" "aWQscTEKMSx5ZXMK"
      "id,q1\n1,yes\n" "").1 (by decide) (by decide) rfl,
   (C8_export_decode depsDemo "123" "pdf" "aWQscTEKMSx5ZXMK" "" "").2.1
     (by decide),
   (C8_export_decode depsDemo "123" "csv" "%%%" "" "bad input").2.2.1
     (by decide) (by decide) rfl,
   (C8_export_decode depsDemo "123" "pdf" "aWQscTEKMSx5ZXMK" "" "").2.2.2⟩

/-- Witness for the amended C4 at concrete inputs. -/
theorem C4_confirmation_gated_witness :
    (deleteAllResponsesHandler "123" false (Except.ok none)).gatewayCalls = [] ∧
    (deleteAllResponsesHandler "123" false (Except.ok none)).response.isError =
      true ∧
    (deleteAllResponsesHandler "123" true (Except.ok none)).gatewayCalls =
      ["deleteAllResponses"] ∧
    (resetSurveyResponsesHandler "123" false (Except.ok none)).gatewayCalls =
      [] ∧
    (resetSurveyResponsesHandler "123" false
        (Except.ok none)).response.isError = true ∧
    (resetSurveyResponsesHandler "123" true (Except.ok none)).gatewayCalls =
      ["resetSurveyResponses"] ∧
    (deleteSurveyHandler "123" false (Except.ok none)).gatewayCalls = [] ∧
    (deleteSurveyHandler "123" false (Except.ok none)).response.isError =
      true ∧
    (deleteSurveyHandler "123" true (Except.ok none)).gatewayCalls =
      ["deleteSurvey"] ∧
    (deleteParticipantsHandler "123" ["TOKEN1"] false
        (Except.ok none)).gatewayCalls = [] ∧
    (deleteParticipantsHandler "123" ["TOKEN1"] false
        (Except.ok none)).response.isError = true ∧
    (deleteParticipantsHandler "123" ["TOKEN1"] true
        (Except.ok none)).gatewayCalls = ["deleteParticipants"] ∧
    (deleteParticipantsLegacyHandler "123" ["TOKEN1"] (Except.ok "KEY123")
        (Except.ok none)).gatewayCalls ≠ [] :=
  C4_confirmation_gated "123" ["TOKEN1"] (Except.ok "KEY123") (Except.ok none)

end LimeSurveyMCP
